import Mathlib

/-!
Shallow embedding of `app/app.py` (WhatsApp-platform Prometheus exporter).

The exporter holds a process-wide metric registry (gauges, labeled gauges,
counters, histograms, one info record).  A scrape triggers one collection
pass: `collect_whatsapp_metrics` (remote HTTP probe) and
`collect_database_metrics` (store query batch) run via
`asyncio.gather(..., return_exceptions=True)`, after which the orchestrator
stamps `last_scrape_timestamp` and observes `scrape_duration_seconds`.

Modelling conventions:
* An external call or query is a `DbResult`: `.ok v` (call returned, payload
  parsed) or `.fail` (the call raised).
* Labeled gauges (`messages_per_group`, `messages_per_sender`,
  `db_table_rows`) are association lists with Python-dict update semantics:
  overwriting an existing key keeps its position, a new key is appended.
* Histograms only matter to the claims through how many observations they
  receive, so each is modelled by an observation counter.
* The two sub-collectors touch disjoint metrics (the probe touches only the
  whatsapp gauges and counters, the batch only the store gauges and the
  database error counter), so the concurrent `asyncio.gather` is modelled as
  sequential composition; `return_exceptions=True` means a sub-collector's
  exception is returned as data and discarded by the orchestrator.
-/

set_option autoImplicit false

namespace WaExporter

/-- Outcome of one external call / SQL query: payload, or a raised exception. -/
inductive DbResult (α : Type) where
  | ok (val : α)
  | fail
  deriving DecidableEq

/-- Python `x or default` on an optional string: `None` and `""` are falsy. -/
def pyOrStr (v : Option String) (d : String) : String :=
  match v with
  | none => d
  | some s => if s = "" then d else s

/-- The double-quote character (`"`), stripped from label text by the code. -/
def dquoteChar : Char := Char.ofNat 34

/-- The single-quote character (`'`), stripped from label text by the code. -/
def squoteChar : Char := Char.ofNat 39

/-- Is `c` one of the two quote characters removed by the sanitizer? -/
def isQuoteChar (c : Char) : Bool := c = dquoteChar || c = squoteChar

/-- `name.replace('"', '').replace("'", "")[:50]` from the source: drop every
quote character, then keep the first 50 characters. -/
def sanitizeLabel (s : String) : String :=
  String.mk ((s.data.filter (fun c => !(isQuoteChar c))).take 50)

/-- `table.replace('"', '')`: drop double quotes from a table name. -/
def stripDQ (s : String) : String :=
  String.mk (s.data.filter (fun c => c ≠ dquoteChar))

/-- Python-dict single-key update: overwriting an existing key keeps its
position, a fresh key is appended at the end.  This is the semantics of
`metric.labels(...).set(v)` on the prometheus-client child dict. -/
def labelSet {K : Type} [DecidableEq K] : List (K × Nat) → K → Nat → List (K × Nat)
  | [], k, v => [(k, v)]
  | p :: m, k, v => if p.1 = k then (k, v) :: m else p :: labelSet m k v

/-- Write a list of labelled rows into a labeled gauge, one `labelSet` per row. -/
def insRows {K : Type} [DecidableEq K] (m : List (K × Nat)) (rows : List (K × Nat)) :
    List (K × Nat) :=
  rows.foldl (fun acc r => labelSet acc r.1 r.2) m

/-- One entry of the `/app/devices` result list (`name` / `device` keys,
either of which may be missing). -/
structure Device where
  name : Option String
  device : Option String
  deriving DecidableEq

/-- Parsed body and status of the `/app/devices` call; `results` is the
optional `"results"` key (`data.get("results", [])`). -/
structure DevicesResponse where
  status : Nat
  results : Option (List Device)
  deriving DecidableEq

/-- The remote WhatsApp API as seen by one probe: the devices call and the
groups call (for the latter only reaching-the-server matters, the body is
used for logging only; we keep its status code). -/
structure ApiState where
  devicesCall : DbResult DevicesResponse
  groupsCall : DbResult Nat

/-- A row of either ranked-aggregate query: two text columns and a count,
each nullable. -/
abbrev AggRow := Option String × Option String × Option Nat

/-- The relational store as seen by one batch: one outcome per query issued
by `collect_database_metrics`, plus an outcome per table name for the final
row-count loop. -/
structure DbState where
  probe : DbResult Unit
  messagesTotal : DbResult (Option Nat)
  messagesToday : DbResult (Option Nat)
  messagesLast24h : DbResult (Option Nat)
  messagesLastHour : DbResult (Option Nat)
  messagesDirect : DbResult (Option Nat)
  messagesGroup : DbResult (Option Nat)
  messagesWithMedia : DbResult (Option Nat)
  messagesPerGroup : DbResult (List AggRow)
  groupsTotal : DbResult (Option Nat)
  groupsManaged : DbResult (Option Nat)
  groupsSpamNotify : DbResult (Option Nat)
  groupsCommunity : DbResult (Option Nat)
  sendersTotal : DbResult (Option Nat)
  sendersActive24h : DbResult (Option Nat)
  messagesPerSender : DbResult (List AggRow)
  reactions : DbResult (Option Nat)
  optouts : DbResult (Option Nat)
  kbtopics : DbResult (Option Nat)
  tableRows : String → DbResult (Option Nat)

/-- Every gauge (and the info record) of the registry.  `none` / `[]` means
the slot has never been written since process start. -/
structure GaugeState where
  whatsappDevicesTotal : Option Nat
  whatsappDeviceInfo : Option (String × String)
  whatsappConnectionStatus : Option Nat
  messagesTotal : Option Nat
  messagesToday : Option Nat
  messagesLast24h : Option Nat
  messagesLastHour : Option Nat
  messagesDirectTotal : Option Nat
  messagesGroupTotal : Option Nat
  messagesWithMedia : Option Nat
  messagesPerGroup : List ((String × String) × Nat)
  groupsTotal : Option Nat
  groupsManaged : Option Nat
  groupsWithSpamNotification : Option Nat
  groupsWithCommunity : Option Nat
  sendersTotal : Option Nat
  sendersActive24h : Option Nat
  messagesPerSender : List ((String × String) × Nat)
  reactionsTotal : Option Nat
  optoutsTotal : Option Nat
  kbTopicsTotal : Option Nat
  dbConnectionStatus : Option Nat
  dbTableRows : List (String × Nat)
  lastScrapeTimestamp : Option Nat
  deriving DecidableEq

/-- The four error-kind labels of `scrape_errors_total`. -/
structure CounterState where
  whatsappApiError : Nat
  whatsappConnectionError : Nat
  databaseError : Nat
  generalError : Nat
  deriving DecidableEq

/-- The whole registry plus observation counts of the three histograms. -/
structure ExporterState where
  gauges : GaugeState
  counters : CounterState
  dbQueryObservations : Nat
  apiLatencyObservations : Nat
  scrapeDurationObservations : Nat
  deriving DecidableEq

/-- Registry at process start: nothing written yet. -/
def initState : ExporterState :=
  { gauges :=
      { whatsappDevicesTotal := none
        whatsappDeviceInfo := none
        whatsappConnectionStatus := none
        messagesTotal := none
        messagesToday := none
        messagesLast24h := none
        messagesLastHour := none
        messagesDirectTotal := none
        messagesGroupTotal := none
        messagesWithMedia := none
        messagesPerGroup := []
        groupsTotal := none
        groupsManaged := none
        groupsWithSpamNotification := none
        groupsWithCommunity := none
        sendersTotal := none
        sendersActive24h := none
        messagesPerSender := []
        reactionsTotal := none
        optoutsTotal := none
        kbTopicsTotal := none
        dbConnectionStatus := none
        dbTableRows := []
        lastScrapeTimestamp := none }
    counters := { whatsappApiError := 0, whatsappConnectionError := 0,
                  databaseError := 0, generalError := 0 }
    dbQueryObservations := 0
    apiLatencyObservations := 0
    scrapeDurationObservations := 0 }

/-! ## Remote service probe (`collect_whatsapp_metrics`) -/

/-- Step 1 of the probe: the `/app/devices` call.  Returns the new state and
the captured device id (`None` unless a truthy identifier was extracted).

On exception: connection gauge 0, `whatsapp_connection_error` counter.
On non-200: connection gauge 0, `whatsapp_api_error` counter.
On 200: devices gauge = list length, connection gauge 1 iff non-empty, and
for a non-empty list the info record is set from the first entry. -/
def collectDevicesStep (call : DbResult DevicesResponse) (st : ExporterState) :
    ExporterState × Option String :=
  match call with
  | .fail =>
      ({ st with
          gauges := { st.gauges with whatsappConnectionStatus := some 0 }
          counters := { st.counters with
            whatsappConnectionError := st.counters.whatsappConnectionError + 1 } },
       none)
  | .ok resp =>
      let st1 : ExporterState :=
        { st with apiLatencyObservations := st.apiLatencyObservations + 1 }
      if resp.status = 200 then
        let results := resp.results.getD []
        let st2 : ExporterState :=
          { st1 with gauges := { st1.gauges with
              whatsappDevicesTotal := some results.length
              whatsappConnectionStatus := some (if results.length > 0 then 1 else 0) } }
        match results with
        | [] => (st2, none)
        | d :: _ =>
            let deviceId := d.device.getD ""
            ({ st2 with gauges := { st2.gauges with
                whatsappDeviceInfo := some (d.name.getD "", deviceId) } },
             if deviceId = "" then none else some deviceId)
      else
        ({ st1 with
            gauges := { st1.gauges with whatsappConnectionStatus := some 0 }
            counters := { st1.counters with
              whatsappApiError := st1.counters.whatsappApiError + 1 } },
       none)

/-- Step 2 of the probe: the `/user/my/groups` call, issued only when a
truthy device id was captured.  Its result is only logged; on success the
latency histogram gets an observation, on failure nothing changes. -/
def collectGroupsStep (call : DbResult Nat) (deviceId : Option String)
    (st : ExporterState) : ExporterState :=
  match deviceId with
  | none => st
  | some _ =>
      match call with
      | .fail => st
      | .ok _ => { st with apiLatencyObservations := st.apiLatencyObservations + 1 }

/-- The whole remote probe: devices call, then (conditionally) groups call. -/
def collectWhatsappMetrics (api : ApiState) (st : ExporterState) : ExporterState :=
  let r := collectDevicesStep api.devicesCall st
  collectGroupsStep api.groupsCall r.2 r.1

/-! ## Store query batch (`collect_database_metrics`)

The body runs under one `try`; any raise inside escapes to the outer
handler, which sets `db_connection_status` to 0, bumps the
`database_error` counter and re-raises.  `Except.error s` carries the
registry state at the moment of the raise (earlier writes persist). -/

/-- Sequencing inside the batch `try` body: an exception short-circuits. -/
def andThen (r : Except ExporterState ExporterState)
    (f : ExporterState → Except ExporterState ExporterState) :
    Except ExporterState ExporterState :=
  match r with
  | .error s => .error s
  | .ok s => f s

/-- The `SELECT 1` connectivity probe: on success observe latency and set
`db_connection_status` to 1; on failure raise (nothing written yet). -/
def probeStep (q : DbResult Unit) (st : ExporterState) :
    Except ExporterState ExporterState :=
  match q with
  | .fail => .error st
  | .ok _ => .ok { st with
      gauges := { st.gauges with dbConnectionStatus := some 1 }
      dbQueryObservations := st.dbQueryObservations + 1 }

/-- A mandatory single-count query: on success write `scalar() or 0` through
`write` and observe latency; on failure raise with the state as is. -/
def countStep (q : DbResult (Option Nat)) (write : GaugeState → Nat → GaugeState)
    (st : ExporterState) : Except ExporterState ExporterState :=
  match q with
  | .fail => .error st
  | .ok v => .ok { st with
      gauges := write st.gauges (v.getD 0)
      dbQueryObservations := st.dbQueryObservations + 1 }

/-- An optional single-count query (`reaction` / `optout` / `kbtopic`):
its own `try` writes the count, the `except` writes the default 0; the
latency observation afterwards happens either way and nothing is raised. -/
def optionalCountStep (q : DbResult (Option Nat))
    (write : GaugeState → Nat → GaugeState) (st : ExporterState) : ExporterState :=
  match q with
  | .fail => { st with
      gauges := write st.gauges 0
      dbQueryObservations := st.dbQueryObservations + 1 }
  | .ok v => { st with
      gauges := write st.gauges (v.getD 0)
      dbQueryObservations := st.dbQueryObservations + 1 }

/-- One row of the top-50 messages-per-group query becomes one labeled-gauge
entry: `row[0] or "unknown"` used verbatim as `group_jid`, the sanitized
`row[1] or "unnamed"` as `group_name`, `row[2] or 0` as the value. -/
def groupRowEntry (r : AggRow) : (String × String) × Nat :=
  ((pyOrStr r.1 "unknown", sanitizeLabel (pyOrStr r.2.1 "unnamed")), r.2.2.getD 0)

/-- One row of the top-10 messages-per-sender query: `row[0] or "unknown"`
verbatim as `sender_jid`, sanitized `row[1] or "unknown"` as `sender_name`,
`row[2] or 0` as the value. -/
def senderRowEntry (r : AggRow) : (String × String) × Nat :=
  ((pyOrStr r.1 "unknown", sanitizeLabel (pyOrStr r.2.1 "unknown")), r.2.2.getD 0)

/-- The top-50 messages-per-group query: the labeled gauge is NOT cleared
first; each row is written on top of whatever the gauge already holds. -/
def groupRankStep (q : DbResult (List AggRow)) (st : ExporterState) :
    Except ExporterState ExporterState :=
  match q with
  | .fail => .error st
  | .ok rows => .ok { st with
      gauges := { st.gauges with
        messagesPerGroup := insRows st.gauges.messagesPerGroup (rows.map groupRowEntry) }
      dbQueryObservations := st.dbQueryObservations + 1 }

/-- The top-10 messages-per-sender query: `messages_per_sender._metrics.clear()`
runs BEFORE the query, so the gauge is empty even if the query then raises. -/
def senderRankStep (q : DbResult (List AggRow)) (st : ExporterState) :
    Except ExporterState ExporterState :=
  let cleared : ExporterState :=
    { st with gauges := { st.gauges with messagesPerSender := [] } }
  match q with
  | .fail => .error cleared
  | .ok rows => .ok { cleared with
      gauges := { cleared.gauges with
        messagesPerSender := insRows [] (rows.map senderRowEntry) }
      dbQueryObservations := cleared.dbQueryObservations + 1 }

/-- The fixed table list of the final row-count loop (the quoted `"group"`
is stripped of quotes before being used as the `table_name` label). -/
def tablesList : List String := ["message", "sender", "\"group\"", "reaction", "optout"]

/-- The final loop: per table, try the count and set the labeled gauge; a
failing table is silently skipped; no latency observation in this loop. -/
def tableRowsStep (f : String → DbResult (Option Nat)) (st : ExporterState) :
    ExporterState :=
  tablesList.foldl
    (fun acc t =>
      match f t with
      | .fail => acc
      | .ok v => { acc with gauges := { acc.gauges with
          dbTableRows := labelSet acc.gauges.dbTableRows (stripDQ t) (v.getD 0) } })
    st

/-- The batch `try` body, query for query in source order. -/
def storeBatchBody (db : DbState) (st : ExporterState) :
    Except ExporterState ExporterState :=
  andThen (probeStep db.probe st) fun s1 =>
  andThen (countStep db.messagesTotal (fun g n => { g with messagesTotal := some n }) s1) fun s2 =>
  andThen (countStep db.messagesToday (fun g n => { g with messagesToday := some n }) s2) fun s3 =>
  andThen (countStep db.messagesLast24h (fun g n => { g with messagesLast24h := some n }) s3) fun s4 =>
  andThen (countStep db.messagesLastHour (fun g n => { g with messagesLastHour := some n }) s4) fun s5 =>
  andThen (countStep db.messagesDirect (fun g n => { g with messagesDirectTotal := some n }) s5) fun s6 =>
  andThen (countStep db.messagesGroup (fun g n => { g with messagesGroupTotal := some n }) s6) fun s7 =>
  andThen (countStep db.messagesWithMedia (fun g n => { g with messagesWithMedia := some n }) s7) fun s8 =>
  andThen (groupRankStep db.messagesPerGroup s8) fun s9 =>
  andThen (countStep db.groupsTotal (fun g n => { g with groupsTotal := some n }) s9) fun s10 =>
  andThen (countStep db.groupsManaged (fun g n => { g with groupsManaged := some n }) s10) fun s11 =>
  andThen (countStep db.groupsSpamNotify (fun g n => { g with groupsWithSpamNotification := some n }) s11) fun s12 =>
  andThen (countStep db.groupsCommunity (fun g n => { g with groupsWithCommunity := some n }) s12) fun s13 =>
  andThen (countStep db.sendersTotal (fun g n => { g with sendersTotal := some n }) s13) fun s14 =>
  andThen (countStep db.sendersActive24h (fun g n => { g with sendersActive24h := some n }) s14) fun s15 =>
  andThen (senderRankStep db.messagesPerSender s15) fun s16 =>
  let s17 := optionalCountStep db.reactions (fun g n => { g with reactionsTotal := some n }) s16
  let s18 := optionalCountStep db.optouts (fun g n => { g with optoutsTotal := some n }) s17
  let s19 := optionalCountStep db.kbtopics (fun g n => { g with kbTopicsTotal := some n }) s18
  .ok (tableRowsStep db.tableRows s19)

/-- `collect_database_metrics`: run the body; on a raise the outer handler
sets `db_connection_status` to 0, bumps `database_error` and re-raises
(the `Bool` records whether the coroutine ended in an exception). -/
def collectDatabaseMetrics (db : DbState) (st : ExporterState) :
    ExporterState × Bool :=
  match storeBatchBody db st with
  | .ok s => (s, false)
  | .error s =>
      ({ s with
          gauges := { s.gauges with dbConnectionStatus := some 0 }
          counters := { s.counters with databaseError := s.counters.databaseError + 1 } },
       true)

/-- End of `collect_all_metrics`: set `last_scrape_timestamp` to the current
wall-clock time and observe the scrape duration. -/
def finalizePass (tEnd : Nat) (s : ExporterState) : ExporterState :=
  { s with
      gauges := { s.gauges with lastScrapeTimestamp := some tEnd }
      scrapeDurationObservations := s.scrapeDurationObservations + 1 }

/-- `collect_all_metrics`: both sub-collectors via
`asyncio.gather(..., return_exceptions=True)` — an exception of either is
returned as data and ignored, so the orchestrator's own `except` (the only
place `general_error` is incremented) is unreachable from sub-collector
failures; then the scrape timestamp gauge is set and the scrape duration
observed unconditionally. -/
def collectAllMetrics (api : ApiState) (db : DbState) (tEnd : Nat)
    (st : ExporterState) : ExporterState :=
  finalizePass tEnd (collectDatabaseMetrics db (collectWhatsappMetrics api st)).1

/-- An HTTP response of the exposition endpoint: Starlette's `Response`
default status (200) and the rendered registry snapshot. -/
structure HttpResponse where
  status : Nat
  snapshot : GaugeState
  deriving DecidableEq

/-- `metrics_endpoint`: run a pass inside `try`/`except` (the handler only
logs), then always build the exposition response from the current registry
with the default 200 status. -/
def metricsEndpoint (api : ApiState) (db : DbState) (tEnd : Nat)
    (st : ExporterState) : HttpResponse × ExporterState :=
  let s1 := collectAllMetrics api db tEnd st
  ({ status := 200, snapshot := s1.gauges }, s1)

/-! ## Views of the gauge state

`WaView` projects the three slots written only by the remote probe,
`StoreView` the twenty written only by the store batch, `StoreDataView`
the store slots other than the connectivity gauge.  `last_scrape_timestamp`
belongs to neither collector (the orchestrator writes it). -/

/-- The gauges written by the remote probe. -/
structure WaView where
  devicesTotal : Option Nat
  deviceInfo : Option (String × String)
  connectionStatus : Option Nat
  deriving DecidableEq

/-- Project the probe-owned gauges. -/
def waView (g : GaugeState) : WaView :=
  { devicesTotal := g.whatsappDevicesTotal
    deviceInfo := g.whatsappDeviceInfo
    connectionStatus := g.whatsappConnectionStatus }

/-- The gauges written by the store batch. -/
structure StoreView where
  messagesTotal : Option Nat
  messagesToday : Option Nat
  messagesLast24h : Option Nat
  messagesLastHour : Option Nat
  messagesDirectTotal : Option Nat
  messagesGroupTotal : Option Nat
  messagesWithMedia : Option Nat
  messagesPerGroup : List ((String × String) × Nat)
  groupsTotal : Option Nat
  groupsManaged : Option Nat
  groupsWithSpamNotification : Option Nat
  groupsWithCommunity : Option Nat
  sendersTotal : Option Nat
  sendersActive24h : Option Nat
  messagesPerSender : List ((String × String) × Nat)
  reactionsTotal : Option Nat
  optoutsTotal : Option Nat
  kbTopicsTotal : Option Nat
  dbConnectionStatus : Option Nat
  dbTableRows : List (String × Nat)
  deriving DecidableEq

/-- Project the batch-owned gauges. -/
def storeView (g : GaugeState) : StoreView :=
  { messagesTotal := g.messagesTotal
    messagesToday := g.messagesToday
    messagesLast24h := g.messagesLast24h
    messagesLastHour := g.messagesLastHour
    messagesDirectTotal := g.messagesDirectTotal
    messagesGroupTotal := g.messagesGroupTotal
    messagesWithMedia := g.messagesWithMedia
    messagesPerGroup := g.messagesPerGroup
    groupsTotal := g.groupsTotal
    groupsManaged := g.groupsManaged
    groupsWithSpamNotification := g.groupsWithSpamNotification
    groupsWithCommunity := g.groupsWithCommunity
    sendersTotal := g.sendersTotal
    sendersActive24h := g.sendersActive24h
    messagesPerSender := g.messagesPerSender
    reactionsTotal := g.reactionsTotal
    optoutsTotal := g.optoutsTotal
    kbTopicsTotal := g.kbTopicsTotal
    dbConnectionStatus := g.dbConnectionStatus
    dbTableRows := g.dbTableRows }

/-- The store gauges other than the connectivity gauge. -/
structure StoreDataView where
  messagesTotal : Option Nat
  messagesToday : Option Nat
  messagesLast24h : Option Nat
  messagesLastHour : Option Nat
  messagesDirectTotal : Option Nat
  messagesGroupTotal : Option Nat
  messagesWithMedia : Option Nat
  messagesPerGroup : List ((String × String) × Nat)
  groupsTotal : Option Nat
  groupsManaged : Option Nat
  groupsWithSpamNotification : Option Nat
  groupsWithCommunity : Option Nat
  sendersTotal : Option Nat
  sendersActive24h : Option Nat
  messagesPerSender : List ((String × String) × Nat)
  reactionsTotal : Option Nat
  optoutsTotal : Option Nat
  kbTopicsTotal : Option Nat
  dbTableRows : List (String × Nat)
  deriving DecidableEq

/-- Project the store gauges other than the connectivity gauge. -/
def storeDataView (g : GaugeState) : StoreDataView :=
  { messagesTotal := g.messagesTotal
    messagesToday := g.messagesToday
    messagesLast24h := g.messagesLast24h
    messagesLastHour := g.messagesLastHour
    messagesDirectTotal := g.messagesDirectTotal
    messagesGroupTotal := g.messagesGroupTotal
    messagesWithMedia := g.messagesWithMedia
    messagesPerGroup := g.messagesPerGroup
    groupsTotal := g.groupsTotal
    groupsManaged := g.groupsManaged
    groupsWithSpamNotification := g.groupsWithSpamNotification
    groupsWithCommunity := g.groupsWithCommunity
    sendersTotal := g.sendersTotal
    sendersActive24h := g.sendersActive24h
    messagesPerSender := g.messagesPerSender
    reactionsTotal := g.reactionsTotal
    optoutsTotal := g.optoutsTotal
    kbTopicsTotal := g.kbTopicsTotal
    dbTableRows := g.dbTableRows }

/-- Forget the orchestrator-owned timestamp gauge. -/
def gaugesNoTs (g : GaugeState) : GaugeState :=
  { g with lastScrapeTimestamp := none }

/-- The rows whose key differs from `k0`. -/
def dropKey {K : Type} [DecidableEq K] (k0 : K) (rows : List (K × Nat)) : List (K × Nat) :=
  rows.filter (fun r => r.1 ≠ k0)

/-- Last value written for key `k` by the row sequence, with default `d`. -/
def lastValD {K : Type} [DecidableEq K] (rows : List (K × Nat)) (k : K) (d : Nat) : Nat :=
  match rows with
  | [] => d
  | (k1, v1) :: rs => if k1 = k then lastValD rs k v1 else lastValD rs k d

/-- The state a coroutine left behind, whether it returned or raised. -/
def stateOf : Except ExporterState ExporterState → ExporterState
  | .ok s => s
  | .error s => s

/-- The value an optional count query contributes: the count on success,
the default 0 on failure. -/
def optionalValue : DbResult (Option Nat) → Nat
  | .ok v => v.getD 0
  | .fail => 0

/-- The label/value pairs the table-row loop writes: one per table whose
count query succeeds, in table-list order. -/
def tableRowsUpdates (f : String → DbResult (Option Nat)) : List (String × Nat) :=
  tablesList.filterMap (fun t =>
    match f t with
    | .fail => none
    | .ok v => some (stripDQ t, v.getD 0))

/-- "`a` differs from `b` only in store-owned slots": the remote-probe
gauges and the general error counter agree.  The store batch preserves this
relation, which is the frame fact the orchestrator-level claims need. -/
def batchFrameRel (a b : ExporterState) : Prop :=
  waView a.gauges = waView b.gauges ∧
  a.counters.generalError = b.counters.generalError ∧
  a.scrapeDurationObservations = b.scrapeDurationObservations

/-- A remote API that answers both calls: one connected device. -/
def apiFix : ApiState :=
  { devicesCall := .ok
      { status := 200
        results := some [{ name := some "Phone", device := some "dev1" }] }
    groupsCall := .ok 200 }

/-- A store where every query succeeds. -/
def dbFix : DbState :=
  { probe := .ok ()
    messagesTotal := .ok (some 10)
    messagesToday := .ok (some 4)
    messagesLast24h := .ok (some 7)
    messagesLastHour := .ok (some 2)
    messagesDirect := .ok (some 3)
    messagesGroup := .ok (some 7)
    messagesWithMedia := .ok (some 5)
    messagesPerGroup := .ok [(some "g1", some "Group One", some 6)]
    groupsTotal := .ok (some 2)
    groupsManaged := .ok (some 1)
    groupsSpamNotify := .ok (some 1)
    groupsCommunity := .ok (some 0)
    sendersTotal := .ok (some 3)
    sendersActive24h := .ok (some 2)
    messagesPerSender := .ok [(some "s1", some "Alice", some 4)]
    reactions := .ok (some 6)
    optouts := .ok (some 1)
    kbtopics := .ok (some 1)
    tableRows := fun _ => .ok (some 9) }

/-- `dbFix` with a failing connectivity probe. -/
def dbProbeFail : DbState := { dbFix with probe := .fail }

/-- `dbFix` with the messages-today query (a mandatory, unwrapped query)
failing and everything else succeeding. -/
def dbTodayFail : DbState := { dbFix with messagesToday := .fail }

/-- `dbFix` with all three optional queries failing. -/
def dbOptionalFail : DbState :=
  { dbFix with reactions := .fail, optouts := .fail, kbtopics := .fail }

/-- `dbFix` with only the optional reaction-count query failing. -/
def dbReactionFail : DbState := { dbFix with reactions := .fail }

/-- A registry that already holds a messages-per-group label from an
earlier pass, for an entity the next query does not return. -/
def stStaleGroup : ExporterState :=
  { initState with gauges :=
      { initState.gauges with messagesPerGroup := [(("gOld", "Old Group"), 5)] } }

/-- A group identifier containing a double-quote character (`g"1`). -/
def jidWithQuote : String := String.mk [Char.ofNat 103, dquoteChar, Char.ofNat 49]

/-- `dbFix` with the top-50 query returning a row whose group identifier
contains a double quote. -/
def dbQuoteJid : DbState :=
  { dbFix with messagesPerGroup := .ok [(some jidWithQuote, some "Group One", some 6)] }

/-- `apiFix` with the groups call raising. -/
def apiGroupsFail : ApiState := { apiFix with groupsCall := .fail }

/-- An empty 200 devices response. -/
def apiEmptyDevices : ApiState :=
  { devicesCall := .ok { status := 200, results := some [] }
    groupsCall := .ok 200 }

/-! ## Helper fixtures above are shared by several witnesses below. -/

/-! ## Association-list lemmas (Python-dict update semantics) -/

section AssocLemmas

variable {K : Type} [DecidableEq K]

theorem insRows_nil (m : List (K × Nat)) : insRows m [] = m := rfl

theorem insRows_cons_rows (m : List (K × Nat)) (k : K) (v : Nat) (rs : List (K × Nat)) :
    insRows m ((k, v) :: rs) = insRows (labelSet m k v) rs := rfl

theorem dropKey_nil (k0 : K) : dropKey k0 ([] : List (K × Nat)) = [] := rfl

theorem dropKey_cons (k0 k : K) (v : Nat) (rs : List (K × Nat)) :
    dropKey k0 ((k, v) :: rs)
      = if k = k0 then dropKey k0 rs else (k, v) :: dropKey k0 rs := by
  by_cases h : k = k0 <;> simp [dropKey, h]

theorem dropKey_length_le (k0 : K) (rows : List (K × Nat)) :
    (dropKey k0 rows).length ≤ rows.length :=
  List.length_filter_le _ _

theorem lastValD_self (rows : List (K × Nat)) (k : K) (d : Nat) :
    lastValD rows k (lastValD rows k d) = lastValD rows k d := by
  induction rows generalizing d with
  | nil => rfl
  | cons p rs ih =>
      obtain ⟨k1, v1⟩ := p
      by_cases h : k1 = k
      · subst h
        simp [lastValD]
      · simp [lastValD, h, ih]

/-- Writing a row list on top of a map with head `(k0, v0)` updates the head
in place (to the last value the rows give `k0`, if any) and writes the
remaining rows into the tail. -/
theorem insRows_cons (k0 : K) (v0 : Nat) (m rows : List (K × Nat)) :
    insRows ((k0, v0) :: m) rows
      = (k0, lastValD rows k0 v0) :: insRows m (dropKey k0 rows) := by
  induction rows generalizing k0 v0 m with
  | nil => simp [insRows, lastValD, dropKey_nil]
  | cons p rs ih =>
      obtain ⟨k, v⟩ := p
      by_cases h : k = k0
      · subst h
        have e1 : labelSet ((k, v0) :: m) k v = (k, v) :: m := by simp [labelSet]
        have e2 : lastValD ((k, v) :: rs) k v0 = lastValD rs k v := by simp [lastValD]
        rw [insRows_cons_rows, e1, ih, e2, dropKey_cons, if_pos rfl]
      · have h2 : k0 ≠ k := fun hh => h hh.symm
        have e1 : labelSet ((k0, v0) :: m) k v = (k0, v0) :: labelSet m k v := by
          simp [labelSet, h2]
        have e2 : lastValD ((k, v) :: rs) k0 v0 = lastValD rs k0 v0 := by
          simp [lastValD, h]
        rw [insRows_cons_rows, e1, ih, e2, dropKey_cons, if_neg h, insRows_cons_rows]

/-- Replaying the same row list over its own result changes nothing: every
key is overwritten in place with the same final value. -/
theorem insRows_idem (m rows : List (K × Nat)) :
    insRows (insRows m rows) rows = insRows m rows := by
  match m, rows with
  | (k0, v0) :: m', rows =>
    rw [insRows_cons k0 v0 m' rows, insRows_cons k0 (lastValD rows k0 v0), lastValD_self]
    rw [insRows_idem m' (dropKey k0 rows)]
  | [], [] => rfl
  | [], (k, v) :: rs =>
    have step1 : insRows ([] : List (K × Nat)) ((k, v) :: rs) = insRows [(k, v)] rs := rfl
    rw [step1, insRows_cons k v [] rs]
    have step2 :
        insRows ((k, lastValD rs k v) :: insRows [] (dropKey k rs)) ((k, v) :: rs)
          = insRows ((k, v) :: insRows [] (dropKey k rs)) rs := by
      rw [insRows_cons_rows]
      have e : labelSet ((k, lastValD rs k v) :: insRows [] (dropKey k rs)) k v
          = (k, v) :: insRows [] (dropKey k rs) := by simp [labelSet]
      rw [e]
    rw [step2, insRows_cons k v, insRows_idem [] (dropKey k rs)]
termination_by rows.length + m.length
decreasing_by
  · simp_wf
    have := dropKey_length_le k0 rows
    omega
  · simp_wf
    have := dropKey_length_le k rs
    omega

theorem mem_map_fst_labelSet (m : List (K × Nat)) (k a : K) (v : Nat) :
    a ∈ (labelSet m k v).map Prod.fst ↔ a ∈ m.map Prod.fst ∨ a = k := by
  induction m with
  | nil => simp [labelSet]
  | cons p rest ih =>
      by_cases h : p.1 = k
      · simp [labelSet, h]
        tauto
      · simp [labelSet, h, ih]
        tauto

/-- The key set after writing a row list is the union of the prior key set
and the rows' keys. -/
theorem mem_map_fst_insRows (m rows : List (K × Nat)) (a : K) :
    a ∈ (insRows m rows).map Prod.fst ↔ a ∈ m.map Prod.fst ∨ a ∈ rows.map Prod.fst := by
  induction rows generalizing m with
  | nil => simp [insRows_nil]
  | cons p rs ih =>
      obtain ⟨k, v⟩ := p
      rw [insRows_cons_rows, ih, mem_map_fst_labelSet]
      simp
      tauto

end AssocLemmas


theorem optionalCountStep_eq (q : DbResult (Option Nat))
    (write : GaugeState → Nat → GaugeState) (st : ExporterState) :
    optionalCountStep q write st
      = { st with
          gauges := write st.gauges (optionalValue q)
          dbQueryObservations := st.dbQueryObservations + 1 } := by
  cases q <;> rfl

theorem tableFold_eq (ts : List String) (f : String → DbResult (Option Nat))
    (st : ExporterState) :
    ts.foldl (fun acc t =>
      match f t with
      | .fail => acc
      | .ok v => { acc with gauges := { acc.gauges with
          dbTableRows := labelSet acc.gauges.dbTableRows (stripDQ t) (v.getD 0) } }) st
    = { st with gauges := { st.gauges with
        dbTableRows := insRows st.gauges.dbTableRows (ts.filterMap (fun t =>
          match f t with
          | .fail => none
          | .ok v => some (stripDQ t, v.getD 0))) } } := by
  induction ts generalizing st with
  | nil => simp [insRows_nil]
  | cons t ts ih =>
      cases hf : f t with
      | fail => simp [hf, ih]
      | ok v => simp [hf, ih, insRows_cons_rows]

theorem tableRowsStep_eq (f : String → DbResult (Option Nat)) (st : ExporterState) :
    tableRowsStep f st
      = { st with gauges := { st.gauges with
          dbTableRows := insRows st.gauges.dbTableRows (tableRowsUpdates f) } } :=
  tableFold_eq tablesList f st


/-! ## Frame lemmas for the remote probe -/

theorem collectGroupsStep_gauges (c : DbResult Nat) (did : Option String)
    (st : ExporterState) :
    (collectGroupsStep c did st).gauges = st.gauges ∧
    (collectGroupsStep c did st).counters = st.counters ∧
    (collectGroupsStep c did st).dbQueryObservations = st.dbQueryObservations ∧
    (collectGroupsStep c did st).scrapeDurationObservations = st.scrapeDurationObservations := by
  cases did <;> cases c <;> simp [collectGroupsStep]

/-- The groups call touches no gauge at all: the probe's gauges after the
whole probe are the ones the devices step left. -/
theorem wa_gauges_eq (api : ApiState) (st : ExporterState) :
    (collectWhatsappMetrics api st).gauges = (collectDevicesStep api.devicesCall st).1.gauges := by
  unfold collectWhatsappMetrics
  exact (collectGroupsStep_gauges api.groupsCall _ _).1

/-- The remote probe leaves every store-owned gauge, the database and
general error counters, and both store-side observation counts alone. -/
theorem wa_frame (api : ApiState) (st : ExporterState) :
    storeView (collectWhatsappMetrics api st).gauges = storeView st.gauges ∧
    (collectWhatsappMetrics api st).counters.databaseError = st.counters.databaseError ∧
    (collectWhatsappMetrics api st).counters.generalError = st.counters.generalError ∧
    (collectWhatsappMetrics api st).dbQueryObservations = st.dbQueryObservations ∧
    (collectWhatsappMetrics api st).scrapeDurationObservations = st.scrapeDurationObservations := by
  unfold collectWhatsappMetrics
  obtain ⟨hg, hc, hq, hs⟩ := collectGroupsStep_gauges api.groupsCall
    (collectDevicesStep api.devicesCall st).2 (collectDevicesStep api.devicesCall st).1
  rw [hg, hc, hq, hs]
  cases api.devicesCall with
  | fail => simp [collectDevicesStep, storeView]
  | ok resp =>
      by_cases h : resp.status = 200
      · simp only [collectDevicesStep, h, if_pos]
        cases hr : resp.results.getD [] with
        | nil => simp [storeView]
        | cons d rest => simp [storeView]
      · simp [collectDevicesStep, h, storeView]

/-- Re-running the probe against the same remote responses rewrites the
probe-owned gauges with the values they already hold. -/
theorem wa_view_idem (api : ApiState) (s t : ExporterState)
    (h : waView t.gauges = waView (collectWhatsappMetrics api s).gauges) :
    waView (collectWhatsappMetrics api t).gauges
      = waView (collectWhatsappMetrics api s).gauges := by
  rw [wa_gauges_eq] at h ⊢
  rw [wa_gauges_eq]
  revert h
  cases api.devicesCall with
  | fail =>
      intro h
      simp_all [collectDevicesStep, waView, WaView.mk.injEq]
  | ok resp =>
      by_cases hs : resp.status = 200
      · simp only [collectDevicesStep, hs, if_pos]
        cases hr : resp.results.getD [] with
        | nil =>
            intro h
            simp_all [waView, WaView.mk.injEq]
        | cons d rest =>
            intro h
            simp_all [waView, WaView.mk.injEq]
      · intro h
        simp_all [collectDevicesStep, hs, waView, WaView.mk.injEq]

theorem batchFrameRel_trans {a b c : ExporterState}
    (h1 : batchFrameRel a b) (h2 : batchFrameRel b c) : batchFrameRel a c :=
  ⟨h1.1.trans h2.1, h1.2.1.trans h2.2.1, h1.2.2.trans h2.2.2⟩

theorem andThen_frame (r : Except ExporterState ExporterState)
    (f : ExporterState → Except ExporterState ExporterState) (st : ExporterState)
    (h1 : batchFrameRel (stateOf r) st)
    (h2 : ∀ x, batchFrameRel (stateOf (f x)) x) :
    batchFrameRel (stateOf (andThen r f)) st := by
  cases r with
  | error s => simpa [andThen, stateOf] using h1
  | ok s =>
      simp only [andThen, stateOf] at h1 ⊢
      exact batchFrameRel_trans (h2 s) h1

theorem probeStep_frame (q : DbResult Unit) (st : ExporterState) :
    batchFrameRel (stateOf (probeStep q st)) st := by
  cases q <;> simp [probeStep, stateOf, batchFrameRel, waView]

theorem countStep_frame (q : DbResult (Option Nat))
    (w : GaugeState → Nat → GaugeState) (st : ExporterState)
    (hw : ∀ g n, waView (w g n) = waView g) :
    batchFrameRel (stateOf (countStep q w st)) st := by
  cases q <;> simp [countStep, stateOf, batchFrameRel, hw]

theorem groupRankStep_frame (q : DbResult (List AggRow)) (st : ExporterState) :
    batchFrameRel (stateOf (groupRankStep q st)) st := by
  cases q <;> simp [groupRankStep, stateOf, batchFrameRel, waView]

theorem senderRankStep_frame (q : DbResult (List AggRow)) (st : ExporterState) :
    batchFrameRel (stateOf (senderRankStep q st)) st := by
  cases q <;> simp [senderRankStep, stateOf, batchFrameRel, waView]

theorem batch_body_frame (db : DbState) (st : ExporterState) :
    batchFrameRel (stateOf (storeBatchBody db st)) st := by
  unfold storeBatchBody
  refine andThen_frame _ _ _ (probeStep_frame _ _) fun s1 => ?_
  refine andThen_frame _ _ _ (countStep_frame _ _ _ fun g n => rfl) fun s2 => ?_
  refine andThen_frame _ _ _ (countStep_frame _ _ _ fun g n => rfl) fun s3 => ?_
  refine andThen_frame _ _ _ (countStep_frame _ _ _ fun g n => rfl) fun s4 => ?_
  refine andThen_frame _ _ _ (countStep_frame _ _ _ fun g n => rfl) fun s5 => ?_
  refine andThen_frame _ _ _ (countStep_frame _ _ _ fun g n => rfl) fun s6 => ?_
  refine andThen_frame _ _ _ (countStep_frame _ _ _ fun g n => rfl) fun s7 => ?_
  refine andThen_frame _ _ _ (countStep_frame _ _ _ fun g n => rfl) fun s8 => ?_
  refine andThen_frame _ _ _ (groupRankStep_frame _ _) fun s9 => ?_
  refine andThen_frame _ _ _ (countStep_frame _ _ _ fun g n => rfl) fun s10 => ?_
  refine andThen_frame _ _ _ (countStep_frame _ _ _ fun g n => rfl) fun s11 => ?_
  refine andThen_frame _ _ _ (countStep_frame _ _ _ fun g n => rfl) fun s12 => ?_
  refine andThen_frame _ _ _ (countStep_frame _ _ _ fun g n => rfl) fun s13 => ?_
  refine andThen_frame _ _ _ (countStep_frame _ _ _ fun g n => rfl) fun s14 => ?_
  refine andThen_frame _ _ _ (countStep_frame _ _ _ fun g n => rfl) fun s15 => ?_
  refine andThen_frame _ _ _ (senderRankStep_frame _ _) fun s16 => ?_
  simp [stateOf, tableRowsStep_eq, optionalCountStep_eq, batchFrameRel, waView]

theorem batch_frame (db : DbState) (st : ExporterState) :
    waView (collectDatabaseMetrics db st).1.gauges = waView st.gauges ∧
    (collectDatabaseMetrics db st).1.counters.generalError
      = st.counters.generalError ∧
    (collectDatabaseMetrics db st).1.scrapeDurationObservations
      = st.scrapeDurationObservations := by
  have h := batch_body_frame db st
  unfold collectDatabaseMetrics
  cases hb : storeBatchBody db st with
  | ok s =>
      rw [hb] at h
      simp only [stateOf] at h
      exact ⟨h.1, h.2.1, h.2.2⟩
  | error s =>
      rw [hb] at h
      simp only [stateOf] at h
      refine ⟨?_, ?_, ?_⟩
      · simpa [waView] using h.1
      · simpa using h.2.1
      · simpa using h.2.2


theorem storeView_idem (db : DbState) (s t : ExporterState)
    (h : storeView t.gauges = storeView (collectDatabaseMetrics db s).1.gauges) :
    storeView (collectDatabaseMetrics db t).1.gauges
      = storeView (collectDatabaseMetrics db s).1.gauges := by
  cases h0 : db.probe with
  | fail =>
      simp_all [collectDatabaseMetrics, storeBatchBody, andThen, probeStep,
        storeView, StoreView.mk.injEq]
  | ok u =>
  cases h1 : db.messagesTotal with
  | fail =>
      simp_all [collectDatabaseMetrics, storeBatchBody, andThen, probeStep, countStep,
        storeView, StoreView.mk.injEq]
  | ok v1 =>
  cases h2 : db.messagesToday with
  | fail =>
      simp_all [collectDatabaseMetrics, storeBatchBody, andThen, probeStep, countStep,
        storeView, StoreView.mk.injEq]
  | ok v2 =>
  cases h3 : db.messagesLast24h with
  | fail =>
      simp_all [collectDatabaseMetrics, storeBatchBody, andThen, probeStep, countStep,
        storeView, StoreView.mk.injEq]
  | ok v3 =>
  cases h4 : db.messagesLastHour with
  | fail =>
      simp_all [collectDatabaseMetrics, storeBatchBody, andThen, probeStep, countStep,
        storeView, StoreView.mk.injEq]
  | ok v4 =>
  cases h5 : db.messagesDirect with
  | fail =>
      simp_all [collectDatabaseMetrics, storeBatchBody, andThen, probeStep, countStep,
        storeView, StoreView.mk.injEq]
  | ok v5 =>
  cases h6 : db.messagesGroup with
  | fail =>
      simp_all [collectDatabaseMetrics, storeBatchBody, andThen, probeStep, countStep,
        storeView, StoreView.mk.injEq]
  | ok v6 =>
  cases h7 : db.messagesWithMedia with
  | fail =>
      simp_all [collectDatabaseMetrics, storeBatchBody, andThen, probeStep, countStep,
        storeView, StoreView.mk.injEq]
  | ok v7 =>
  cases h8 : db.messagesPerGroup with
  | fail =>
      simp_all [collectDatabaseMetrics, storeBatchBody, andThen, probeStep, countStep,
        groupRankStep, storeView, StoreView.mk.injEq]
  | ok rowsG =>
  cases h9 : db.groupsTotal with
  | fail =>
      simp_all [collectDatabaseMetrics, storeBatchBody, andThen, probeStep, countStep,
        groupRankStep, storeView, StoreView.mk.injEq, insRows_idem]
  | ok v9 =>
  cases h10 : db.groupsManaged with
  | fail =>
      simp_all [collectDatabaseMetrics, storeBatchBody, andThen, probeStep, countStep,
        groupRankStep, storeView, StoreView.mk.injEq, insRows_idem]
  | ok v10 =>
  cases h11 : db.groupsSpamNotify with
  | fail =>
      simp_all [collectDatabaseMetrics, storeBatchBody, andThen, probeStep, countStep,
        groupRankStep, storeView, StoreView.mk.injEq, insRows_idem]
  | ok v11 =>
  cases h12 : db.groupsCommunity with
  | fail =>
      simp_all [collectDatabaseMetrics, storeBatchBody, andThen, probeStep, countStep,
        groupRankStep, storeView, StoreView.mk.injEq, insRows_idem]
  | ok v12 =>
  cases h13 : db.sendersTotal with
  | fail =>
      simp_all [collectDatabaseMetrics, storeBatchBody, andThen, probeStep, countStep,
        groupRankStep, storeView, StoreView.mk.injEq, insRows_idem]
  | ok v13 =>
  cases h14 : db.sendersActive24h with
  | fail =>
      simp_all [collectDatabaseMetrics, storeBatchBody, andThen, probeStep, countStep,
        groupRankStep, storeView, StoreView.mk.injEq, insRows_idem]
  | ok v14 =>
  cases h15 : db.messagesPerSender with
  | fail =>
      simp_all [collectDatabaseMetrics, storeBatchBody, andThen, probeStep, countStep,
        groupRankStep, senderRankStep, storeView, StoreView.mk.injEq, insRows_idem]
  | ok rowsS =>
      simp_all [collectDatabaseMetrics, storeBatchBody, andThen, probeStep, countStep,
        groupRankStep, senderRankStep, optionalCountStep_eq, tableRowsStep_eq,
        storeView, StoreView.mk.injEq, insRows_idem]


/-! ## Orchestrator-level frame lemmas and glue -/

theorem allMetrics_waView (api : ApiState) (db : DbState) (t : Nat) (s : ExporterState) :
    waView (collectAllMetrics api db t s).gauges
      = waView (collectWhatsappMetrics api s).gauges := by
  unfold collectAllMetrics finalizePass
  have hb := (batch_frame db (collectWhatsappMetrics api s)).1
  simpa [waView] using hb

theorem allMetrics_storeView (api : ApiState) (db : DbState) (t : Nat) (s : ExporterState) :
    storeView (collectAllMetrics api db t s).gauges
      = storeView (collectDatabaseMetrics db (collectWhatsappMetrics api s)).1.gauges := by
  unfold collectAllMetrics finalizePass
  simp [storeView]

theorem storeDataView_of_storeView {g g' : GaugeState}
    (h : storeView g = storeView g') : storeDataView g = storeDataView g' := by
  cases g
  cases g'
  simp only [storeView, StoreView.mk.injEq] at h
  simp only [storeDataView, StoreDataView.mk.injEq]
  tauto

theorem gaugesNoTs_eq_of_views {g g' : GaugeState}
    (hw : waView g = waView g') (hs : storeView g = storeView g') :
    gaugesNoTs g = gaugesNoTs g' := by
  cases g
  cases g'
  simp only [waView, WaView.mk.injEq] at hw
  simp only [storeView, StoreView.mk.injEq] at hs
  simp only [gaugesNoTs, GaugeState.mk.injEq]
  tauto


/-! ## Concrete fixtures used by witnesses and counterexamples -/

/-! ## C2 -/

/-- C2: if the database connectivity probe fails, the whole pass sets the
store-connectivity gauge to 0, increments the `database_error` counter by
exactly 1, aborts the batch, leaves every other store-derived gauge at its
prior value, and still completes with a scrape-duration observation. -/
theorem C2_probe_failure (api : ApiState) (db : DbState) (tEnd : Nat)
    (st : ExporterState) (hp : db.probe = DbResult.fail) :
    (collectAllMetrics api db tEnd st).gauges.dbConnectionStatus = some 0 ∧
    (collectAllMetrics api db tEnd st).counters.databaseError
      = st.counters.databaseError + 1 ∧
    (collectDatabaseMetrics db (collectWhatsappMetrics api st)).2 = true ∧
    storeDataView (collectAllMetrics api db tEnd st).gauges = storeDataView st.gauges ∧
    (collectAllMetrics api db tEnd st).scrapeDurationObservations
      = st.scrapeDurationObservations + 1 := by
  obtain ⟨hsv, hdbe, hge, hdq, hsd⟩ := wa_frame api st
  have hbody : storeBatchBody db (collectWhatsappMetrics api st)
      = .error (collectWhatsappMetrics api st) := by
    simp [storeBatchBody, andThen, probeStep, hp]
  refine ⟨?_, ?_, ?_, ?_, ?_⟩
  · simp [collectAllMetrics, finalizePass, collectDatabaseMetrics, hbody]
  · simp [collectAllMetrics, finalizePass, collectDatabaseMetrics, hbody, hdbe]
  · simp [collectDatabaseMetrics, hbody]
  · have h1 : storeDataView (collectAllMetrics api db tEnd st).gauges
        = storeDataView (collectWhatsappMetrics api st).gauges := by
      simp [collectAllMetrics, finalizePass, collectDatabaseMetrics, hbody, storeDataView]
    rw [h1, storeDataView_of_storeView hsv]
  · simp [collectAllMetrics, finalizePass, collectDatabaseMetrics, hbody, hsd]

/-- C2 witness: the theorem instantiated at a concrete pass. -/
theorem C2_probe_failure_witness :
    (collectAllMetrics apiFix dbProbeFail 7 initState).gauges.dbConnectionStatus = some 0 ∧
    (collectAllMetrics apiFix dbProbeFail 7 initState).counters.databaseError
      = initState.counters.databaseError + 1 ∧
    (collectDatabaseMetrics dbProbeFail (collectWhatsappMetrics apiFix initState)).2 = true ∧
    storeDataView (collectAllMetrics apiFix dbProbeFail 7 initState).gauges
      = storeDataView initState.gauges ∧
    (collectAllMetrics apiFix dbProbeFail 7 initState).scrapeDurationObservations
      = initState.scrapeDurationObservations + 1 :=
  C2_probe_failure apiFix dbProbeFail 7 initState rfl

/-! ## C10 -/

/-- C10 counterexample: with the external state fixed, two consecutive
passes do NOT leave every gauge identical — the `last_scrape_timestamp`
gauge (set to the wall-clock time at the end of each pass) differs. -/
theorem C10_counterexample :
    (collectAllMetrics apiFix dbFix 1 (collectAllMetrics apiFix dbFix 0 initState)).gauges
      ≠ (collectAllMetrics apiFix dbFix 0 initState).gauges := by
  decide

/-- C10 as amended: with the external state fixed, two consecutive passes
leave every gauge other than the orchestrator's own `last_scrape_timestamp`
gauge identical. -/
theorem C10_gauge_idempotence (api : ApiState) (db : DbState) (t1 t2 : Nat)
    (st : ExporterState) :
    gaugesNoTs (collectAllMetrics api db t2 (collectAllMetrics api db t1 st)).gauges
      = gaugesNoTs (collectAllMetrics api db t1 st).gauges := by
  apply gaugesNoTs_eq_of_views
  · rw [allMetrics_waView]
    rw [wa_view_idem api st (collectAllMetrics api db t1 st) (allMetrics_waView api db t1 st)]
    exact (allMetrics_waView api db t1 st).symm
  · rw [allMetrics_storeView]
    have h : storeView (collectWhatsappMetrics api (collectAllMetrics api db t1 st)).gauges
        = storeView (collectDatabaseMetrics db (collectWhatsappMetrics api st)).1.gauges := by
      rw [(wa_frame api (collectAllMetrics api db t1 st)).1]
      exact allMetrics_storeView api db t1 st
    rw [storeView_idem db (collectWhatsappMetrics api st)
      (collectWhatsappMetrics api (collectAllMetrics api db t1 st)) h]
    exact (allMetrics_storeView api db t1 st).symm


/-! ## C1 -/

/-- C1 counterexample: the probe succeeds and exactly one non-optional
query (messages-today) fails, yet the batch aborts: the later
messages-last-24h query (which would succeed with 7) is never executed and
its gauge stays unwritten. -/
theorem C1_counterexample :
    dbTodayFail.probe = DbResult.ok () ∧
    dbTodayFail.messagesToday = DbResult.fail ∧
    dbTodayFail.messagesLast24h = DbResult.ok (some 7) ∧
    (collectDatabaseMetrics dbTodayFail initState).2 = true ∧
    (collectDatabaseMetrics dbTodayFail initState).1.gauges.messagesLast24h = none ∧
    (collectDatabaseMetrics dbTodayFail initState).1.gauges.dbConnectionStatus = some 0 ∧
    (collectDatabaseMetrics dbTodayFail initState).1.counters.databaseError
      = initState.counters.databaseError + 1 := by
  decide

/-- C1 as amended: only the three optional-table count queries and the
table row-count loop are fault-isolated.  Whenever the probe and every
mandatory query succeed, the batch completes whatever the optional queries
do, and all three optional gauges are written. -/
theorem C1_only_optional_isolated (db : DbState) (st : ExporterState)
    (u : Unit) (n1 n2 n3 n4 n5 n6 n7 : Option Nat) (rowsG : List AggRow)
    (m1 m2 m3 m4 m5 m6 : Option Nat) (rowsS : List AggRow)
    (hp : db.probe = DbResult.ok u)
    (h1 : db.messagesTotal = DbResult.ok n1)
    (h2 : db.messagesToday = DbResult.ok n2)
    (h3 : db.messagesLast24h = DbResult.ok n3)
    (h4 : db.messagesLastHour = DbResult.ok n4)
    (h5 : db.messagesDirect = DbResult.ok n5)
    (h6 : db.messagesGroup = DbResult.ok n6)
    (h7 : db.messagesWithMedia = DbResult.ok n7)
    (h8 : db.messagesPerGroup = DbResult.ok rowsG)
    (h9 : db.groupsTotal = DbResult.ok m1)
    (h10 : db.groupsManaged = DbResult.ok m2)
    (h11 : db.groupsSpamNotify = DbResult.ok m3)
    (h12 : db.groupsCommunity = DbResult.ok m4)
    (h13 : db.sendersTotal = DbResult.ok m5)
    (h14 : db.sendersActive24h = DbResult.ok m6)
    (h15 : db.messagesPerSender = DbResult.ok rowsS) :
    (collectDatabaseMetrics db st).2 = false ∧
    (collectDatabaseMetrics db st).1.gauges.reactionsTotal
      = some (optionalValue db.reactions) ∧
    (collectDatabaseMetrics db st).1.gauges.optoutsTotal
      = some (optionalValue db.optouts) ∧
    (collectDatabaseMetrics db st).1.gauges.kbTopicsTotal
      = some (optionalValue db.kbtopics) := by
  simp [collectDatabaseMetrics, storeBatchBody, andThen, probeStep, countStep,
    groupRankStep, senderRankStep, optionalCountStep_eq, tableRowsStep_eq,
    hp, h1, h2, h3, h4, h5, h6, h7, h8, h9, h10, h11, h12, h13, h14, h15]

/-- C1 witness: with every mandatory query succeeding and all three
optional queries failing, the batch still completes and each optional
gauge is written (with the default 0). -/
theorem C1_only_optional_isolated_witness :
    (collectDatabaseMetrics dbOptionalFail initState).2 = false ∧
    (collectDatabaseMetrics dbOptionalFail initState).1.gauges.reactionsTotal
      = some (optionalValue dbOptionalFail.reactions) ∧
    (collectDatabaseMetrics dbOptionalFail initState).1.gauges.optoutsTotal
      = some (optionalValue dbOptionalFail.optouts) ∧
    (collectDatabaseMetrics dbOptionalFail initState).1.gauges.kbTopicsTotal
      = some (optionalValue dbOptionalFail.kbtopics) :=
  C1_only_optional_isolated dbOptionalFail initState () (some 10) (some 4) (some 7)
    (some 2) (some 3) (some 7) (some 5) [(some "g1", some "Group One", some 6)]
    (some 2) (some 1) (some 1) (some 0) (some 3) (some 2)
    [(some "s1", some "Alice", some 4)]
    rfl rfl rfl rfl rfl rfl rfl rfl rfl rfl rfl rfl rfl rfl rfl rfl

/-! ## C8 -/

/-- C8: on the success path of the mandatory queries, a failure of any of
the three optional-table count queries sets the corresponding gauge to 0,
leaves every error counter untouched, and does not stop the rest of the
batch (the later optional gauges and the table row-count loop still run). -/
theorem C8_optional_failure_isolated (db : DbState) (st : ExporterState)
    (u : Unit) (n1 n2 n3 n4 n5 n6 n7 : Option Nat) (rowsG : List AggRow)
    (m1 m2 m3 m4 m5 m6 : Option Nat) (rowsS : List AggRow)
    (hp : db.probe = DbResult.ok u)
    (h1 : db.messagesTotal = DbResult.ok n1)
    (h2 : db.messagesToday = DbResult.ok n2)
    (h3 : db.messagesLast24h = DbResult.ok n3)
    (h4 : db.messagesLastHour = DbResult.ok n4)
    (h5 : db.messagesDirect = DbResult.ok n5)
    (h6 : db.messagesGroup = DbResult.ok n6)
    (h7 : db.messagesWithMedia = DbResult.ok n7)
    (h8 : db.messagesPerGroup = DbResult.ok rowsG)
    (h9 : db.groupsTotal = DbResult.ok m1)
    (h10 : db.groupsManaged = DbResult.ok m2)
    (h11 : db.groupsSpamNotify = DbResult.ok m3)
    (h12 : db.groupsCommunity = DbResult.ok m4)
    (h13 : db.sendersTotal = DbResult.ok m5)
    (h14 : db.sendersActive24h = DbResult.ok m6)
    (h15 : db.messagesPerSender = DbResult.ok rowsS) :
    (collectDatabaseMetrics db st).2 = false ∧
    (collectDatabaseMetrics db st).1.counters = st.counters ∧
    (db.reactions = DbResult.fail →
      (collectDatabaseMetrics db st).1.gauges.reactionsTotal = some 0) ∧
    (db.optouts = DbResult.fail →
      (collectDatabaseMetrics db st).1.gauges.optoutsTotal = some 0) ∧
    (db.kbtopics = DbResult.fail →
      (collectDatabaseMetrics db st).1.gauges.kbTopicsTotal = some 0) ∧
    (collectDatabaseMetrics db st).1.gauges.optoutsTotal
      = some (optionalValue db.optouts) ∧
    (collectDatabaseMetrics db st).1.gauges.kbTopicsTotal
      = some (optionalValue db.kbtopics) ∧
    (collectDatabaseMetrics db st).1.gauges.dbTableRows
      = insRows st.gauges.dbTableRows (tableRowsUpdates db.tableRows) := by
  refine ⟨?_, ?_, ?_, ?_, ?_, ?_, ?_, ?_⟩ <;>
    simp [collectDatabaseMetrics, storeBatchBody, andThen, probeStep, countStep,
      groupRankStep, senderRankStep, optionalCountStep_eq, tableRowsStep_eq,
      hp, h1, h2, h3, h4, h5, h6, h7, h8, h9, h10, h11, h12, h13, h14, h15] <;>
    intro hfail <;> simp [hfail, optionalValue]

/-- C8 witness: the reaction table is absent; its gauge reads 0, the error
counters are untouched, and the remaining queries still ran. -/
theorem C8_optional_failure_isolated_witness :
    (collectDatabaseMetrics dbReactionFail initState).2 = false ∧
    (collectDatabaseMetrics dbReactionFail initState).1.counters = initState.counters ∧
    (dbReactionFail.reactions = DbResult.fail →
      (collectDatabaseMetrics dbReactionFail initState).1.gauges.reactionsTotal = some 0) ∧
    (dbReactionFail.optouts = DbResult.fail →
      (collectDatabaseMetrics dbReactionFail initState).1.gauges.optoutsTotal = some 0) ∧
    (dbReactionFail.kbtopics = DbResult.fail →
      (collectDatabaseMetrics dbReactionFail initState).1.gauges.kbTopicsTotal = some 0) ∧
    (collectDatabaseMetrics dbReactionFail initState).1.gauges.optoutsTotal
      = some (optionalValue dbReactionFail.optouts) ∧
    (collectDatabaseMetrics dbReactionFail initState).1.gauges.kbTopicsTotal
      = some (optionalValue dbReactionFail.kbtopics) ∧
    (collectDatabaseMetrics dbReactionFail initState).1.gauges.dbTableRows
      = insRows initState.gauges.dbTableRows (tableRowsUpdates dbReactionFail.tableRows) :=
  C8_optional_failure_isolated dbReactionFail initState () (some 10) (some 4) (some 7)
    (some 2) (some 3) (some 7) (some 5) [(some "g1", some "Group One", some 6)]
    (some 2) (some 1) (some 1) (some 0) (some 3) (some 2)
    [(some "s1", some "Alice", some 4)]
    rfl rfl rfl rfl rfl rfl rfl rfl rfl rfl rfl rfl rfl rfl rfl rfl


/-! ## C3 -/

/-- C3 counterexample: the top-50 messages-per-group gauge is NOT cleared
before repopulation — after a successful pass whose query returns only
entity `g1`, the stale label from the previous pass is still present. -/
theorem C3_counterexample :
    dbFix.messagesPerGroup = DbResult.ok [(some "g1", some "Group One", some 6)] ∧
    (collectDatabaseMetrics dbFix stStaleGroup).2 = false ∧
    (("gOld", "Old Group") ∈
      (collectDatabaseMetrics dbFix stStaleGroup).1.gauges.messagesPerGroup.map Prod.fst) ∧
    (("gOld", "Old Group") ∉
      ([(some "g1", some "Group One", some (6 : Nat))].map groupRowEntry).map Prod.fst) := by
  refine ⟨rfl, by decide, by decide, by decide⟩

/-- C3 as amended: on a successful pass, the top-10 messages-per-sender
gauge IS cleared before repopulation, so its label set afterwards is
exactly the labels of the rows the query returned; the top-50
messages-per-group gauge is NOT cleared, so its label set is the union of
the prior label set and the labels of the returned rows. -/
theorem C3_ranked_label_sets (db : DbState) (st : ExporterState)
    (u : Unit) (n1 n2 n3 n4 n5 n6 n7 : Option Nat) (rowsG : List AggRow)
    (m1 m2 m3 m4 m5 m6 : Option Nat) (rowsS : List AggRow)
    (hp : db.probe = DbResult.ok u)
    (h1 : db.messagesTotal = DbResult.ok n1)
    (h2 : db.messagesToday = DbResult.ok n2)
    (h3 : db.messagesLast24h = DbResult.ok n3)
    (h4 : db.messagesLastHour = DbResult.ok n4)
    (h5 : db.messagesDirect = DbResult.ok n5)
    (h6 : db.messagesGroup = DbResult.ok n6)
    (h7 : db.messagesWithMedia = DbResult.ok n7)
    (h8 : db.messagesPerGroup = DbResult.ok rowsG)
    (h9 : db.groupsTotal = DbResult.ok m1)
    (h10 : db.groupsManaged = DbResult.ok m2)
    (h11 : db.groupsSpamNotify = DbResult.ok m3)
    (h12 : db.groupsCommunity = DbResult.ok m4)
    (h13 : db.sendersTotal = DbResult.ok m5)
    (h14 : db.sendersActive24h = DbResult.ok m6)
    (h15 : db.messagesPerSender = DbResult.ok rowsS) :
    (∀ k, k ∈ (collectDatabaseMetrics db st).1.gauges.messagesPerSender.map Prod.fst
        ↔ k ∈ (rowsS.map senderRowEntry).map Prod.fst) ∧
    (∀ k, k ∈ (collectDatabaseMetrics db st).1.gauges.messagesPerGroup.map Prod.fst
        ↔ (k ∈ st.gauges.messagesPerGroup.map Prod.fst
            ∨ k ∈ (rowsG.map groupRowEntry).map Prod.fst)) := by
  have hred : (collectDatabaseMetrics db st).1.gauges.messagesPerSender
        = insRows [] (rowsS.map senderRowEntry) ∧
      (collectDatabaseMetrics db st).1.gauges.messagesPerGroup
        = insRows st.gauges.messagesPerGroup (rowsG.map groupRowEntry) := by
    simp [collectDatabaseMetrics, storeBatchBody, andThen, probeStep, countStep,
      groupRankStep, senderRankStep, optionalCountStep_eq, tableRowsStep_eq,
      hp, h1, h2, h3, h4, h5, h6, h7, h8, h9, h10, h11, h12, h13, h14, h15]
  rw [hred.1, hred.2]
  constructor
  · intro k
    rw [mem_map_fst_insRows]
    simp
  · intro k
    exact mem_map_fst_insRows _ _ k

/-- C3 witness: a concrete successful pass over `stStaleGroup`; the sender
gauge's label set is exactly the query's entity, while the group gauge
keeps the stale label alongside the fresh one. -/
theorem C3_ranked_label_sets_witness :
    ((("s1", "Alice") ∈
        (collectDatabaseMetrics dbFix stStaleGroup).1.gauges.messagesPerSender.map Prod.fst)
      ↔ (("s1", "Alice") ∈
          ([(some "s1", some "Alice", some (4 : Nat))].map senderRowEntry).map Prod.fst)) ∧
    ((("gOld", "Old Group") ∈
        (collectDatabaseMetrics dbFix stStaleGroup).1.gauges.messagesPerGroup.map Prod.fst)
      ↔ (("gOld", "Old Group") ∈ stStaleGroup.gauges.messagesPerGroup.map Prod.fst
          ∨ ("gOld", "Old Group") ∈
              ([(some "g1", some "Group One", some (6 : Nat))].map groupRowEntry).map Prod.fst)) :=
  have h := C3_ranked_label_sets dbFix stStaleGroup () (some 10) (some 4) (some 7)
    (some 2) (some 3) (some 7) (some 5) [(some "g1", some "Group One", some 6)]
    (some 2) (some 1) (some 1) (some 0) (some 3) (some 2)
    [(some "s1", some "Alice", some 4)]
    rfl rfl rfl rfl rfl rfl rfl rfl rfl rfl rfl rfl rfl rfl rfl rfl
  ⟨h.1 ("s1", "Alice"), h.2 ("gOld", "Old Group")⟩


/-! ## C4 -/

/-- C4 counterexample: the store sub-collection raises (probe failure, so
`collect_database_metrics` re-raises after its own handler), yet the
orchestrator's general error counter is NOT incremented — the
`return_exceptions=True` gather hands the exception back as data and
`collect_all_metrics` never enters its `except` block. -/
theorem C4_counterexample :
    dbProbeFail.probe = DbResult.fail ∧
    (collectDatabaseMetrics dbProbeFail (collectWhatsappMetrics apiFix initState)).2 = true ∧
    (collectAllMetrics apiFix dbProbeFail 5 initState).counters.generalError
      = initState.counters.generalError := by
  decide

/-- C4 as amended: whatever either sub-collection does, the orchestrator
never increments the general error counter; the pass still completes (the
timestamp gauge is set and a scrape-duration observation recorded) and the
scrape returns the current registry snapshot with the success status. -/
theorem C4_degraded_pass_completes (api : ApiState) (db : DbState) (t : Nat)
    (st : ExporterState) :
    (collectAllMetrics api db t st).counters.generalError
      = st.counters.generalError ∧
    (collectAllMetrics api db t st).scrapeDurationObservations
      = st.scrapeDurationObservations + 1 ∧
    (collectAllMetrics api db t st).gauges.lastScrapeTimestamp = some t ∧
    (metricsEndpoint api db t st).1.status = 200 ∧
    (metricsEndpoint api db t st).1.snapshot = (collectAllMetrics api db t st).gauges := by
  obtain ⟨hw1, hw2, hw3, hw4, hw5⟩ := wa_frame api st
  obtain ⟨hb1, hb2, hb3⟩ := batch_frame db (collectWhatsappMetrics api st)
  refine ⟨?_, ?_, ?_, rfl, rfl⟩
  · simp [collectAllMetrics, finalizePass, hb2, hw3]
  · simp [collectAllMetrics, finalizePass, hb3, hw5]
  · simp [collectAllMetrics, finalizePass]

/-! ## C5 -/

/-- C5 counterexample: the jid label column is written to the labeled
gauge verbatim — after a successful pass, a label value containing a
double-quote character is present in the messages-per-group gauge. -/
theorem C5_counterexample :
    ((collectDatabaseMetrics dbQuoteJid initState).1.gauges.messagesPerGroup.map
        (fun p => p.1.1)).any (fun s => s.data.any (fun c => isQuoteChar c)) = true := by
  decide

/-- C5 as amended: only the name-derived label values go through the
sanitizer — on every ranked-aggregate row, the rendered `group_name` /
`sender_name` label contains no quote character and is at most 50
characters long, while the jid label is the raw column text (defaulted). -/
theorem C5_name_labels_sanitized (r : AggRow) :
    ((groupRowEntry r).1.2.data.all (fun c => !(isQuoteChar c)) = true) ∧
    (groupRowEntry r).1.2.data.length ≤ 50 ∧
    ((senderRowEntry r).1.2.data.all (fun c => !(isQuoteChar c)) = true) ∧
    (senderRowEntry r).1.2.data.length ≤ 50 ∧
    (groupRowEntry r).1.1 = pyOrStr r.1 "unknown" ∧
    (senderRowEntry r).1.1 = pyOrStr r.1 "unknown" := by
  refine ⟨?_, ?_, ?_, ?_, rfl, rfl⟩
  · simp only [groupRowEntry, sanitizeLabel, List.all_eq_true]
    intro c hc
    have hmem := List.mem_of_mem_take hc
    simpa using (List.of_mem_filter hmem)
  · simp only [groupRowEntry, sanitizeLabel]
    exact List.length_take_le 50 _
  · simp only [senderRowEntry, sanitizeLabel, List.all_eq_true]
    intro c hc
    have hmem := List.mem_of_mem_take hc
    simpa using (List.of_mem_filter hmem)
  · simp only [senderRowEntry, sanitizeLabel]
    exact List.length_take_le 50 _

/-! ## C6 -/

/-- C6: a failing groups call changes no gauge the devices step set — in
fact the groups step touches no gauge at all, so connectivity gauge,
device-count gauge (and the info record) keep the step-1 values. -/
theorem C6_groups_failure_preserves_step1 (api : ApiState) (st : ExporterState)
    (_hgf : api.groupsCall = DbResult.fail) :
    (collectWhatsappMetrics api st).gauges.whatsappConnectionStatus
      = (collectDevicesStep api.devicesCall st).1.gauges.whatsappConnectionStatus ∧
    (collectWhatsappMetrics api st).gauges.whatsappDevicesTotal
      = (collectDevicesStep api.devicesCall st).1.gauges.whatsappDevicesTotal ∧
    (collectWhatsappMetrics api st).gauges.whatsappDeviceInfo
      = (collectDevicesStep api.devicesCall st).1.gauges.whatsappDeviceInfo := by
  rw [wa_gauges_eq]
  exact ⟨rfl, rfl, rfl⟩

/-- C6 witness: concrete probe where the devices call succeeds (one
device) and the groups call raises. -/
theorem C6_groups_failure_preserves_step1_witness :
    (collectWhatsappMetrics apiGroupsFail initState).gauges.whatsappConnectionStatus
      = (collectDevicesStep apiGroupsFail.devicesCall initState).1.gauges.whatsappConnectionStatus ∧
    (collectWhatsappMetrics apiGroupsFail initState).gauges.whatsappDevicesTotal
      = (collectDevicesStep apiGroupsFail.devicesCall initState).1.gauges.whatsappDevicesTotal ∧
    (collectWhatsappMetrics apiGroupsFail initState).gauges.whatsappDeviceInfo
      = (collectDevicesStep apiGroupsFail.devicesCall initState).1.gauges.whatsappDeviceInfo :=
  C6_groups_failure_preserves_step1 apiGroupsFail initState rfl

/-! ## C7 -/

/-- C7: when the devices call returns status 200, the device-count gauge is
the length of the (defaulted) result list, the connectivity gauge is 1 for
a non-empty list and 0 otherwise, and the info record is rewritten from
the first entry's name/device fields exactly when the list is non-empty
(an empty list leaves it at its prior value). -/
theorem C7_devices_success (api : ApiState) (st : ExporterState)
    (resp : DevicesResponse)
    (hc : api.devicesCall = DbResult.ok resp) (hs : resp.status = 200) :
    (collectWhatsappMetrics api st).gauges.whatsappDevicesTotal
      = some (resp.results.getD []).length ∧
    (collectWhatsappMetrics api st).gauges.whatsappConnectionStatus
      = some (if (resp.results.getD []).length > 0 then 1 else 0) ∧
    (resp.results.getD [] = [] →
      (collectWhatsappMetrics api st).gauges.whatsappDeviceInfo
        = st.gauges.whatsappDeviceInfo) ∧
    (∀ d rest, resp.results.getD [] = d :: rest →
      (collectWhatsappMetrics api st).gauges.whatsappDeviceInfo
        = some (d.name.getD "", d.device.getD "")) := by
  rw [wa_gauges_eq, hc]
  cases hr : resp.results.getD [] with
  | nil =>
      refine ⟨?_, ?_, ?_, ?_⟩
      · simp [collectDevicesStep, hs, hr]
      · simp [collectDevicesStep, hs, hr]
      · intro hnil
        simp [collectDevicesStep, hs, hr]
      · intro d2 rest2 hcons
        simp [hr] at hcons
  | cons d rest =>
      refine ⟨?_, ?_, ?_, ?_⟩
      · simp [collectDevicesStep, hs, hr]
      · simp [collectDevicesStep, hs, hr]
      · intro hnil
        simp [hr] at hnil
      · intro d2 rest2 hcons
        injection hcons with e1 e2
        subst e1
        subst e2
        simp [collectDevicesStep, hs, hr]

/-- C7 witness: the theorem applied to the one-device response, plus the
empty-list scenario (gauges 1/0, info record untouched) via the theorem
applied to an empty 200 response. -/
theorem C7_devices_success_witness :
    (collectWhatsappMetrics apiFix initState).gauges.whatsappDevicesTotal = some 1 ∧
    (collectWhatsappMetrics apiFix initState).gauges.whatsappDeviceInfo
      = some ("Phone", "dev1") ∧
    (collectWhatsappMetrics apiEmptyDevices initState).gauges.whatsappDevicesTotal = some 0 ∧
    (collectWhatsappMetrics apiEmptyDevices initState).gauges.whatsappConnectionStatus = some 0 ∧
    (collectWhatsappMetrics apiEmptyDevices initState).gauges.whatsappDeviceInfo
      = initState.gauges.whatsappDeviceInfo :=
  have h1 := C7_devices_success apiFix initState
    { status := 200, results := some [{ name := some "Phone", device := some "dev1" }] }
    rfl rfl
  have h2 := C7_devices_success apiEmptyDevices initState
    { status := 200, results := some [] } rfl rfl
  ⟨h1.1, h1.2.2.2 { name := some "Phone", device := some "dev1" } [] rfl,
    h2.1, by simpa using h2.2.1, h2.2.2.1 rfl⟩

/-! ## C9 -/

/-- C9: the exposition endpoint always answers with the success status and
the rendered registry snapshot, for every external state — including every
degraded or failing collection pass. -/
theorem C9_endpoint_always_succeeds (api : ApiState) (db : DbState) (t : Nat)
    (st : ExporterState) :
    (metricsEndpoint api db t st).1.status = 200 ∧
    (metricsEndpoint api db t st).1.snapshot
      = (collectAllMetrics api db t st).gauges :=
  ⟨rfl, rfl⟩

end WaExporter
